import Mathlib

/-!
Shallow embedding of the YouTube semantic-search pipeline (src/app.py).

The external services (YouTube search API, transcript API, sentence
embedding model, sklearn cosine metric) are opaque collaborators; they are
modelled as explicit function parameters.  Provider call counts and the
`st.cache_data` transcript cache are threaded explicitly so that claims
about memoization and call counts become statements about the model.
-/

namespace YSS

deriving instance DecidableEq for Except

/-- One candidate video record, as assembled by `fetch_videos` (the
duck-typed dict with keys video_id, title, description, transcript). -/
structure Video where
  video_id : String
  title : String
  description : String
  transcript : String
deriving DecidableEq, Repr, Inhabited

/-- One timed text segment of a transcript, as returned by the transcript
provider (only the "text" field is used by the code). -/
structure Segment where
  text : String
deriving DecidableEq, Repr

/-- Outcomes of a raw transcript-provider call: the two named no-data
conditions (TranscriptsDisabled, NoTranscriptFound) and any other failure
(network, quota, malformed response). -/
inductive TranscriptError where
  | transcriptsDisabled : TranscriptError
  | noTranscriptFound : TranscriptError
  | otherFailure : String → TranscriptError
deriving DecidableEq, Repr

/-- The upstream transcript provider: maps a video id to a list of
segments or a failure.  Deterministic per id (the claims about it only
need one call per id to be distinguishable via the call count). -/
abbrev TranscriptProvider := String → Except TranscriptError (List Segment)

/-- The `st.cache_data` cache of `get_transcript`: video id to cached
string result. -/
abbrev TCache := List (String × String)

/-- Cache lookup, keyed by video id. -/
def lookupT : TCache → String → Option String
  | [], _ => none
  | (k, v) :: rest, i => if k = i then some v else lookupT rest i

/-- Result of one `get_transcript` invocation: the returned string or the
propagated exception, the cache afterwards, and how many provider calls
the invocation made. -/
structure TransOutcome where
  result : Except TranscriptError String
  tc : TCache
  calls : Nat
deriving Repr

/-- Model of `get_transcript` (app.py lines 17-23) together with its
`st.cache_data` behaviour: a cache hit short-circuits; otherwise the
provider is called once; the two no-data exceptions degrade to the empty
string; the returned string (empty or not) is cached; any other exception
propagates and nothing is cached. -/
def get_transcript (tp : TranscriptProvider) (tc : TCache) (video_id : String) :
    TransOutcome :=
  match lookupT tc video_id with
  | some t => ⟨.ok t, tc, 0⟩
  | none =>
    match tp video_id with
    | .ok segs =>
      let t := String.intercalate " " (segs.map Segment.text)
      ⟨.ok t, (video_id, t) :: tc, 1⟩
    | .error .transcriptsDisabled => ⟨.ok "", (video_id, "") :: tc, 1⟩
    | .error .noTranscriptFound => ⟨.ok "", (video_id, "") :: tc, 1⟩
    | .error e => ⟨.error e, tc, 1⟩

/-- One item of the search-provider response (id/title/description pulled
out of the snippet). -/
structure SearchItem where
  videoId : String
  title : String
  description : String
deriving DecidableEq, Repr

/-- Failures of the search provider (auth, quota, network, malformed). -/
inductive SearchError where
  | authError : SearchError
  | quotaError : SearchError
  | networkError : SearchError
  | malformedResponse : SearchError
deriving DecidableEq, Repr

/-- The upstream search provider.  First argument: how many provider
calls have been made so far in the process, so that a provider whose
answer changes between calls is expressible; then the query and the
maxResults bound. -/
abbrev SearchProvider := Nat → String → Nat → Except SearchError (List SearchItem)

/-- Everything that can abort the pipeline: a search-provider failure, a
propagated transcript failure, or an sklearn error. -/
inductive SkError where
  | emptyFit : SkError
  | nNeighborsTooLarge : SkError
deriving DecidableEq, Repr

inductive PipelineError where
  | search : SearchError → PipelineError
  | transcript : TranscriptError → PipelineError
  | sklearn : SkError → PipelineError
deriving DecidableEq, Repr

/-- Result of the per-item loop of `fetch_videos`: the assembled videos
or a propagated transcript failure, the transcript cache afterwards, and
the number of transcript-provider calls made. -/
structure BuildOutcome where
  result : Except TranscriptError (List Video)
  tc : TCache
  tCalls : Nat
deriving Repr

/-- The loop of `fetch_videos` (app.py lines 35-43): for each response
item build the video dict, resolving the transcript only when
use_transcripts is set. -/
def buildVideos (tp : TranscriptProvider) (use_transcripts : Bool) :
    List SearchItem → TCache → BuildOutcome
  | [], tc => ⟨.ok [], tc, 0⟩
  | item :: rest, tc =>
    let t : TransOutcome :=
      if use_transcripts then get_transcript tp tc item.videoId
      else ⟨.ok "", tc, 0⟩
    match t.result with
    | .error e => ⟨.error e, t.tc, t.calls⟩
    | .ok tr =>
      let b := buildVideos tp use_transcripts rest t.tc
      match b.result with
      | .error e => ⟨.error e, b.tc, t.calls + b.tCalls⟩
      | .ok vs =>
        ⟨.ok ({ video_id := item.videoId, title := item.title,
                description := item.description, transcript := tr } :: vs),
         b.tc, t.calls + b.tCalls⟩

/-- Result of one `fetch_videos` invocation: the videos or the propagated
failure, the search-provider call counter afterwards, the transcript
cache afterwards, and the transcript-provider call count. -/
structure FetchOutcome where
  result : Except PipelineError (List Video)
  spCtr : Nat
  tc : TCache
  tCalls : Nat
deriving Repr

/-- Model of `fetch_videos` (app.py lines 25-44).  The function carries
no cache of its own: every invocation executes the search request
(max_results fixed at 10), incrementing the provider call counter. -/
def fetch_videos (sp : SearchProvider) (tp : TranscriptProvider)
    (spCtr : Nat) (tc : TCache) (query : String) (use_transcripts : Bool) :
    FetchOutcome :=
  match sp spCtr query 10 with
  | .error e => ⟨.error (.search e), spCtr + 1, tc, 0⟩
  | .ok items =>
    let b := buildVideos tp use_transcripts items tc
    match b.result with
    | .error e => ⟨.error (.transcript e), spCtr + 1, b.tc, b.tCalls⟩
    | .ok vs => ⟨.ok vs, spCtr + 1, b.tc, b.tCalls⟩

/-- An embedding vector; the model is opaque, so any fixed carrier with a
decidable order on distances works.  Rationals keep everything
executable. -/
abbrev Vec := List Rat

/-- The embedding model, a deterministic opaque map from text to vector
(SentenceTransformer.encode on one string). -/
abbrev Model := String → Vec

/-- The distance metric used by sklearn (metric="cosine" in the source),
kept opaque: the ranking claims are about ordering and selection, not the
cosine formula. -/
abbrev Dist := Vec → Vec → Rat

/-- Comparison of (index, distance) pairs by distance. -/
def distLE (a b : Nat × Rat) : Prop := a.2 ≤ b.2

instance : DecidableRel distLE := fun a b =>
  inferInstanceAs (Decidable (a.2 ≤ b.2))

instance : IsTotal (Nat × Rat) distLE := ⟨fun a b => le_total a.2 b.2⟩

instance : IsTrans (Nat × Rat) distLE := ⟨fun _ _ _ hab hbc => le_trans hab hbc⟩

/-- Model of `NearestNeighbors(n_neighbors=k, metric=...).fit(X)` followed
by `kneighbors(q)` (app.py lines 68-70): fitting zero samples raises;
asking for more neighbors than samples raises; otherwise the k samples
nearest to q are returned as (index, distance) pairs in ascending
distance order. -/
def kneighbors (dist : Dist) (X : List Vec) (q : Vec) (k : Nat) :
    Except SkError (List (Nat × Rat)) :=
  if X.length = 0 then .error .emptyFit
  else if X.length < k then .error .nNeighborsTooLarge
  else
    let pairs := (List.range X.length).map (fun i => (i, dist (X.getD i []) q))
    .ok ((pairs.insertionSort distLE).take k)

/-- The combined text embedded for one video (app.py line 64):
f-string title, description and transcript joined with single spaces,
separators present even when a field is empty. -/
def combinedText (v : Video) : String :=
  v.title ++ " " ++ v.description ++ " " ++ v.transcript

/-- Join a list of strings with single spaces. -/
def joinSpace : List String → String
  | [] => ""
  | [s] => s
  | s :: rest => s ++ " " ++ joinSpace rest

/-- Modelled from the spec (section 3, CombinedText): the concatenation
of the fields that are present (nonempty), in the fixed order title,
description, transcript, separated by single spaces. -/
def combinedText_spec (v : Video) : String :=
  joinSpace (([v.title, v.description, v.transcript]).filter (fun s => s != ""))

/-- Result of one `run_search` invocation. -/
structure RunOutcome where
  result : Except PipelineError (List Video)
  spCtr : Nat
  tc : TCache
  tCalls : Nat
deriving Repr

/-- Model of `run_search` (app.py lines 62-72): fetch candidates, build
the combined texts, embed them and the query, rank with n_neighbors fixed
at 5, and map the ranked indices back into the video list. -/
def run_search (sp : SearchProvider) (tp : TranscriptProvider)
    (model : Model) (dist : Dist) (spCtr : Nat) (tc : TCache)
    (user_input : String) (use_transcripts : Bool) : RunOutcome :=
  let f := fetch_videos sp tp spCtr tc user_input use_transcripts
  match f.result with
  | .error e => ⟨.error e, f.spCtr, f.tc, f.tCalls⟩
  | .ok videos =>
    let video_texts := videos.map combinedText
    let video_embeddings := video_texts.map model
    let query_embedding := model user_input
    match kneighbors dist video_embeddings query_embedding 5 with
    | .error e => ⟨.error (.sklearn e), f.spCtr, f.tc, f.tCalls⟩
    | .ok pairs =>
      ⟨.ok (pairs.map (fun p => videos.getD p.1 default)), f.spCtr, f.tc, f.tCalls⟩

/-! ## Theorems -/

/-- Helper: `fetch_videos` propagates a search-provider failure unchanged. -/
theorem fetch_videos_error_of_provider_error (sp : SearchProvider)
    (tp : TranscriptProvider) (spCtr : Nat) (tc : TCache) (q : String)
    (flag : Bool) (e : SearchError) (h : sp spCtr q 10 = .error e) :
    fetch_videos sp tp spCtr tc q flag = ⟨.error (.search e), spCtr + 1, tc, 0⟩ := by
  unfold fetch_videos
  rw [h]

/-- C7: a search-provider failure during the corpus fetch propagates out of
`run_search` as an upstream error: the run ends with that error and no
ranked results. -/
theorem run_search_aborts_on_provider_failure (sp : SearchProvider)
    (tp : TranscriptProvider) (model : Model) (dist : Dist) (spCtr : Nat)
    (tc : TCache) (q : String) (flag : Bool) (e : SearchError)
    (h : sp spCtr q 10 = .error e) :
    (run_search sp tp model dist spCtr tc q flag).result = .error (.search e) := by
  unfold run_search
  rw [fetch_videos_error_of_provider_error sp tp spCtr tc q flag e h]

/-- Witness for C7 at a concrete failing provider. -/
theorem run_search_aborts_on_provider_failure_witness :
    (fun (_ : Nat) (_ : String) (_ : Nat) =>
        (.error .networkError : Except SearchError (List SearchItem))) 0 "cats" 10
      = .error .networkError ∧
    (run_search (fun _ _ _ => .error .networkError) (fun _ => .ok [])
        (fun _ => [1]) (fun _ _ => 0) 0 [] "cats" true).result
      = .error (.search .networkError) :=
  ⟨rfl, run_search_aborts_on_provider_failure _ _ _ _ 0 [] "cats" true
    .networkError rfl⟩

/-- Counterexample to C2: `fetch_videos` is not memoized.  With a provider
whose answer differs between the first and the second call, two
invocations with the identical (query, flag) pair return different
sequences, and the second invocation does contact the provider (the call
counter goes from 1 to 2). -/
theorem fetch_videos_not_memoized_cex :
    (fetch_videos (fun n _ _ => if n = 0 then .ok [⟨"a", "ta", "da"⟩]
        else .ok [⟨"b", "tb", "db"⟩]) (fun _ => .ok []) 0 [] "q" false).result
      = .ok [⟨"a", "ta", "da", ""⟩] ∧
    (fetch_videos (fun n _ _ => if n = 0 then .ok [⟨"a", "ta", "da"⟩]
        else .ok [⟨"b", "tb", "db"⟩]) (fun _ => .ok []) 1 [] "q" false).result
      = .ok [⟨"b", "tb", "db", ""⟩] ∧
    (fetch_videos (fun n _ _ => if n = 0 then .ok [⟨"a", "ta", "da"⟩]
        else .ok [⟨"b", "tb", "db"⟩]) (fun _ => .ok []) 0 [] "q" false).spCtr = 1 ∧
    (fetch_videos (fun n _ _ => if n = 0 then .ok [⟨"a", "ta", "da"⟩]
        else .ok [⟨"b", "tb", "db"⟩]) (fun _ => .ok []) 1 [] "q" false).spCtr = 2 ∧
    (.ok [⟨"a", "ta", "da", ""⟩] : Except PipelineError (List Video))
      ≠ .ok [⟨"b", "tb", "db", ""⟩] := by
  refine ⟨rfl, rfl, rfl, rfl, by decide⟩

/-- C2 as amended: the corpus fetch is not memoized; every invocation of
`fetch_videos`, including a repeated identical (query, flag) pair, makes
exactly one new call to the search provider. -/
theorem fetch_videos_always_calls_provider (sp : SearchProvider)
    (tp : TranscriptProvider) (spCtr : Nat) (tc : TCache) (q : String)
    (flag : Bool) :
    (fetch_videos sp tp spCtr tc q flag).spCtr = spCtr + 1 := by
  unfold fetch_videos
  cases h : sp spCtr q 10 with
  | error e => rfl
  | ok items =>
    simp only
    cases hb : (buildVideos tp flag items tc).result with
    | error e => rfl
    | ok vs => rfl

/-- Counterexample to C4: with a search provider that returns zero items,
the pipeline does not return an empty result; sklearn's fit on an empty
candidate set raises, and the run ends in an error. -/
theorem run_search_empty_corpus_cex :
    (run_search (fun _ _ _ => .ok []) (fun _ => .ok []) (fun _ => [1])
        (fun _ _ => 0) 0 [] "q" false).result
      = .error (.sklearn .emptyFit) := by
  rfl

/-- C4 as amended: when the corpus fetch returns zero candidates, ranking
raises (empty fit) and the overall search ends in that error rather than
an empty result. -/
theorem run_search_empty_corpus_errors (sp : SearchProvider)
    (tp : TranscriptProvider) (model : Model) (dist : Dist) (spCtr : Nat)
    (tc : TCache) (q : String) (flag : Bool)
    (h : (fetch_videos sp tp spCtr tc q flag).result = .ok []) :
    (run_search sp tp model dist spCtr tc q flag).result
      = .error (.sklearn .emptyFit) := by
  unfold run_search
  simp only [h]
  rfl

/-- Witness for the amended C4 at a concrete empty-corpus provider. -/
theorem run_search_empty_corpus_errors_witness :
    (fetch_videos (fun _ _ _ => .ok []) (fun _ => .ok []) 0 [] "q" true).result
      = .ok [] ∧
    (run_search (fun _ _ _ => .ok []) (fun _ => .ok []) (fun _ => [1])
        (fun _ _ => 0) 0 [] "q" true).result
      = .error (.sklearn .emptyFit) :=
  ⟨rfl, run_search_empty_corpus_errors _ _ _ _ 0 [] "q" true rfl⟩

/-- Helper: a cache hit short-circuits `get_transcript` entirely. -/
theorem get_transcript_hit (tp : TranscriptProvider) (tc : TCache)
    (i t : String) (h : lookupT tc i = some t) :
    get_transcript tp tc i = ⟨.ok t, tc, 0⟩ := by
  unfold get_transcript
  rw [h]

/-- Helper: the id just inserted is found by `lookupT`. -/
theorem lookupT_cons_self (tc : TCache) (i t : String) :
    lookupT ((i, t) :: tc) i = some t := by
  simp [lookupT]

/-- Helper: after a successful `get_transcript`, the returned string is in
the cache under the queried id, and at most one provider call was made. -/
theorem get_transcript_caches (tp : TranscriptProvider) (tc : TCache)
    (i t : String) (h : (get_transcript tp tc i).result = .ok t) :
    lookupT (get_transcript tp tc i).tc i = some t ∧
    (get_transcript tp tc i).calls ≤ 1 := by
  unfold get_transcript at h ⊢
  cases hl : lookupT tc i with
  | some t0 =>
    simp only [hl] at h ⊢
    injection h with h
    subst h
    exact ⟨rfl, Nat.zero_le 1⟩
  | none =>
    simp only [hl] at h ⊢
    cases htp : tp i with
    | ok segs =>
      simp only [htp] at h ⊢
      injection h with h
      subst h
      exact ⟨lookupT_cons_self tc i _, le_refl 1⟩
    | error e =>
      cases e with
      | transcriptsDisabled =>
        simp only [htp] at h ⊢
        injection h with h
        subst h
        exact ⟨lookupT_cons_self tc i "", le_refl 1⟩
      | noTranscriptFound =>
        simp only [htp] at h ⊢
        injection h with h
        subst h
        exact ⟨lookupT_cons_self tc i "", le_refl 1⟩
      | otherFailure m =>
        rw [htp] at h
        exact absurd h (by simp)

/-- C5: transcript resolution is idempotent and memoized per id.  If a
`get_transcript` call returned the string t (including the degraded empty
string), it made at most one provider call, and a second call for the
same id against the resulting cache returns the same t with zero provider
calls and an unchanged cache. -/
theorem get_transcript_idempotent_memoized (tp : TranscriptProvider)
    (tc : TCache) (i t : String)
    (h : (get_transcript tp tc i).result = .ok t) :
    get_transcript tp (get_transcript tp tc i).tc i
      = ⟨.ok t, (get_transcript tp tc i).tc, 0⟩ ∧
    (get_transcript tp tc i).calls ≤ 1 := by
  obtain ⟨h1, h2⟩ := get_transcript_caches tp tc i t h
  exact ⟨get_transcript_hit tp _ i t h1, h2⟩

/-- Witness for C5: a provider that signals "transcripts disabled"
degrades to the empty string on a fresh cache, and the second resolve
for the same id is served from the cache with zero provider calls. -/
theorem get_transcript_idempotent_memoized_witness :
    (get_transcript (fun _ => .error .transcriptsDisabled) [] "v1").result
      = .ok "" ∧
    (get_transcript (fun _ => .error .transcriptsDisabled)
        (get_transcript (fun _ => .error .transcriptsDisabled) [] "v1").tc "v1"
      = ⟨.ok "", (get_transcript (fun _ => .error .transcriptsDisabled) [] "v1").tc, 0⟩ ∧
    (get_transcript (fun _ => .error .transcriptsDisabled) [] "v1").calls ≤ 1) :=
  ⟨rfl, get_transcript_idempotent_memoized (fun _ => .error .transcriptsDisabled)
    [] "v1" "" rfl⟩

/-- Counterexample to C3's "only if" direction: a provider that succeeds
with an empty segment list makes `get_transcript` return the empty string
even though neither no-data condition was signalled. -/
theorem get_transcript_empty_without_nodata_cex :
    (get_transcript (fun _ => .ok []) [] "v1").result = .ok "" ∧
    (fun (_ : String) =>
        (.ok [] : Except TranscriptError (List Segment))) "v1"
      ≠ .error .transcriptsDisabled ∧
    (fun (_ : String) =>
        (.ok [] : Except TranscriptError (List Segment))) "v1"
      ≠ .error .noTranscriptFound := by
  exact ⟨rfl, by decide, by decide⟩

/-- C3 as amended: on a cache miss, resolution returns the empty string
iff the provider signals transcripts-disabled or no-transcript-found, or
succeeds with segments whose space-join is empty; and it ends in error e
iff the provider fails with that e and e is neither of the two no-data
conditions (so network, quota and malformed-response failures propagate
unchanged). -/
theorem get_transcript_error_policy (tp : TranscriptProvider) (tc : TCache)
    (i : String) (hmiss : lookupT tc i = none) :
    ((get_transcript tp tc i).result = .ok "" ↔
      tp i = .error .transcriptsDisabled ∨ tp i = .error .noTranscriptFound ∨
      ∃ segs, tp i = .ok segs ∧
        String.intercalate " " (segs.map Segment.text) = "") ∧
    ∀ e, ((get_transcript tp tc i).result = .error e ↔
      tp i = .error e ∧ e ≠ .transcriptsDisabled ∧ e ≠ .noTranscriptFound) := by
  unfold get_transcript
  rw [hmiss]
  cases htp : tp i with
  | ok segs =>
    refine ⟨⟨fun he => ?_, ?_⟩, fun e => ⟨fun he => ?_, fun hr => ?_⟩⟩
    · refine Or.inr (Or.inr ⟨segs, rfl, ?_⟩)
      simpa using he
    · rintro (h | h | ⟨segs2, hs, hj⟩)
      · exact absurd h (by simp)
      · exact absurd h (by simp)
      · injection hs with hs
        subst hs
        simpa using hj
    · exact absurd he (by simp)
    · obtain ⟨he, -, -⟩ := hr
      exact absurd he (by simp)
  | error e0 =>
    cases e0 with
    | transcriptsDisabled =>
      refine ⟨by simp, fun e => ⟨fun he => ?_, fun hr => ?_⟩⟩
      · exact absurd he (by simp)
      · obtain ⟨he, h1, -⟩ := hr
        injection he with he
        exact absurd he.symm h1
    | noTranscriptFound =>
      refine ⟨by simp, fun e => ⟨fun he => ?_, fun hr => ?_⟩⟩
      · exact absurd he (by simp)
      · obtain ⟨he, -, h2⟩ := hr
        injection he with he
        exact absurd he.symm h2
    | otherFailure m =>
      refine ⟨by simp, fun e => ⟨fun he => ?_, fun hr => ?_⟩⟩
      · replace he : TranscriptError.otherFailure m = e := by simpa using he
        subst he
        exact ⟨rfl, by simp, by simp⟩
      · obtain ⟨he, -, -⟩ := hr
        injection he with he
        subst he
        rfl

/-- Witness for the amended C3: a quota failure on a fresh cache
propagates unchanged and the empty-string characterisation holds. -/
theorem get_transcript_error_policy_witness :
    lookupT [] "v1" = none ∧
    (((get_transcript (fun _ => .error (.otherFailure "quota")) [] "v1").result
        = .ok "" ↔
      (fun (_ : String) =>
          (.error (.otherFailure "quota") : Except TranscriptError (List Segment))) "v1"
        = .error .transcriptsDisabled ∨
      (fun (_ : String) =>
          (.error (.otherFailure "quota") : Except TranscriptError (List Segment))) "v1"
        = .error .noTranscriptFound ∨
      ∃ segs, (fun (_ : String) =>
          (.error (.otherFailure "quota") : Except TranscriptError (List Segment))) "v1"
        = .ok segs ∧ String.intercalate " " (segs.map Segment.text) = "") ∧
    ∀ e, ((get_transcript (fun _ => .error (.otherFailure "quota")) [] "v1").result
        = .error e ↔
      (fun (_ : String) =>
          (.error (.otherFailure "quota") : Except TranscriptError (List Segment))) "v1"
        = .error e ∧ e ≠ .transcriptsDisabled ∧ e ≠ .noTranscriptFound)) :=
  ⟨rfl, get_transcript_error_policy (fun _ => .error (.otherFailure "quota")) [] "v1" rfl⟩

/-- Helper: with use_transcripts false the per-item loop touches no
provider and no cache, and fills every transcript field with "". -/
theorem buildVideos_false (tp : TranscriptProvider) (items : List SearchItem)
    (tc : TCache) :
    buildVideos tp false items tc
      = ⟨.ok (items.map (fun it =>
          ⟨it.videoId, it.title, it.description, ""⟩)), tc, 0⟩ := by
  induction items generalizing tc with
  | nil => rfl
  | cons item rest ih =>
    unfold buildVideos
    simp [ih]

/-- Helper: `run_search` passes the fetch stage's transcript cache and
transcript-call count through unchanged in every branch. -/
theorem run_search_state (sp : SearchProvider) (tp : TranscriptProvider)
    (model : Model) (dist : Dist) (spCtr : Nat) (tc : TCache) (q : String)
    (flag : Bool) :
    (run_search sp tp model dist spCtr tc q flag).tc
      = (fetch_videos sp tp spCtr tc q flag).tc ∧
    (run_search sp tp model dist spCtr tc q flag).tCalls
      = (fetch_videos sp tp spCtr tc q flag).tCalls := by
  unfold run_search
  cases hf : (fetch_videos sp tp spCtr tc q flag).result with
  | error e => simp [hf]
  | ok videos =>
    simp only [hf]
    cases kneighbors dist (List.map model (List.map combinedText videos))
        (model q) 5 with
    | error e => simp
    | ok pairs => simp

/-- Helper: with use_transcripts false, `fetch_videos` makes zero
transcript-provider calls, leaves the transcript cache unchanged, and
every candidate it returns has an empty transcript field. -/
theorem fetch_videos_false (sp : SearchProvider) (tp : TranscriptProvider)
    (spCtr : Nat) (tc : TCache) (q : String) :
    (fetch_videos sp tp spCtr tc q false).tCalls = 0 ∧
    (fetch_videos sp tp spCtr tc q false).tc = tc ∧
    ∀ videos, (fetch_videos sp tp spCtr tc q false).result = .ok videos →
      ∀ v ∈ videos, v.transcript = "" := by
  unfold fetch_videos
  cases hsp : sp spCtr q 10 with
  | error e =>
    refine ⟨rfl, rfl, fun videos hv => ?_⟩
    exact absurd hv (by simp)
  | ok items =>
    dsimp only
    rw [buildVideos_false tp items tc]
    refine ⟨rfl, rfl, fun videos hv v hm => ?_⟩
    replace hv : items.map (fun it =>
        (⟨it.videoId, it.title, it.description, ""⟩ : Video)) = videos := by
      simpa using hv
    rw [← hv] at hm
    obtain ⟨it, -, hit⟩ := List.mem_map.mp hm
    rw [← hit]

/-- C6: a search run with useTranscripts=false makes zero calls to the
transcript provider (the transcript cache is also untouched), and every
candidate fetched for it has the empty string as transcript field. -/
theorem run_search_false_no_transcript_calls (sp : SearchProvider)
    (tp : TranscriptProvider) (model : Model) (dist : Dist) (spCtr : Nat)
    (tc : TCache) (q : String) :
    (run_search sp tp model dist spCtr tc q false).tCalls = 0 ∧
    (run_search sp tp model dist spCtr tc q false).tc = tc ∧
    ∀ videos, (fetch_videos sp tp spCtr tc q false).result = .ok videos →
      ∀ v ∈ videos, v.transcript = "" := by
  obtain ⟨h1, h2, h3⟩ := fetch_videos_false sp tp spCtr tc q
  obtain ⟨g1, g2⟩ := run_search_state sp tp model dist spCtr tc q false
  exact ⟨g2.trans h1, g1.trans h2, h3⟩

/-- Witness for C6 at a concrete one-item corpus and a transcript
provider that would fail if it were ever consulted. -/
theorem run_search_false_no_transcript_calls_witness :
    (run_search (fun _ _ _ => .ok [⟨"a", "t", "d"⟩])
        (fun _ => .error (.otherFailure "net")) (fun _ => [1]) (fun _ _ => 0)
        0 [] "q" false).tCalls = 0 ∧
    (run_search (fun _ _ _ => .ok [⟨"a", "t", "d"⟩])
        (fun _ => .error (.otherFailure "net")) (fun _ => [1]) (fun _ _ => 0)
        0 [] "q" false).tc = [] ∧
    ∀ videos, (fetch_videos (fun _ _ _ => .ok [⟨"a", "t", "d"⟩])
        (fun _ => .error (.otherFailure "net")) 0 [] "q" false).result
          = .ok videos →
      ∀ v ∈ videos, v.transcript = "" :=
  run_search_false_no_transcript_calls (fun _ _ _ => .ok [⟨"a", "t", "d"⟩])
    (fun _ => .error (.otherFailure "net")) (fun _ => [1]) (fun _ _ => 0)
    0 [] "q"

/-- Counterexample to C8: for a candidate with an empty transcript, the
code embeds "title description " (the f-string keeps both separators, so
the text ends in a space), not the space-join of the present fields. -/
theorem combinedText_cex :
    combinedText ⟨"v1", "t", "d", ""⟩ = "t d " ∧
    combinedText_spec ⟨"v1", "t", "d", ""⟩ = "t d" ∧
    combinedText ⟨"v1", "t", "d", ""⟩ ≠ combinedText_spec ⟨"v1", "t", "d", ""⟩ := by
  exact ⟨rfl, rfl, by decide⟩

/-- C8 as amended: the embedding input for a candidate is always
title ++ " " ++ description ++ " " ++ transcript (separators inserted
unconditionally); when all three fields are nonempty this coincides with
joining the present fields with single spaces. -/
theorem combinedText_eq_spec_of_all_present (v : Video)
    (ht : v.title ≠ "") (hd : v.description ≠ "") (htr : v.transcript ≠ "") :
    combinedText v = v.title ++ " " ++ v.description ++ " " ++ v.transcript ∧
    combinedText v = combinedText_spec v := by
  obtain ⟨i, t, d, tr⟩ := v
  simp only at ht hd htr
  refine ⟨rfl, ?_⟩
  simp only [combinedText, combinedText_spec]
  rw [List.filter_cons_of_pos (by simpa using ht),
      List.filter_cons_of_pos (by simpa using hd),
      List.filter_cons_of_pos (by simpa using htr),
      List.filter_nil]
  simp [joinSpace, String.append_assoc]

/-- Witness for the amended C8 at a fully populated candidate. -/
theorem combinedText_eq_spec_of_all_present_witness :
    (("t" : String) ≠ "" ∧ ("d" : String) ≠ "" ∧ ("tr" : String) ≠ "") ∧
    (combinedText ⟨"v1", "t", "d", "tr"⟩
        = "t" ++ " " ++ "d" ++ " " ++ "tr" ∧
      combinedText ⟨"v1", "t", "d", "tr"⟩
        = combinedText_spec ⟨"v1", "t", "d", "tr"⟩) :=
  ⟨⟨by decide, by decide, by decide⟩,
    combinedText_eq_spec_of_all_present ⟨"v1", "t", "d", "tr"⟩
      (by decide) (by decide) (by decide)⟩

/-- Helper: the candidate pairs (index, distance) that `kneighbors` sorts. -/
def knnPairs (dist : Dist) (X : List Vec) (q : Vec) : List (Nat × Rat) :=
  (List.range X.length).map (fun i => (i, dist (X.getD i []) q))

/-- Helper: on a non-empty fit with k within bounds, `kneighbors` returns
the first k of the distance-sorted pairs. -/
theorem kneighbors_ok_of_le (dist : Dist) (X : List Vec) (q : Vec) (k : Nat)
    (h0 : X.length ≠ 0) (hk : k ≤ X.length) :
    kneighbors dist X q k = .ok (((knnPairs dist X q).insertionSort distLE).take k) := by
  unfold kneighbors knnPairs
  rw [if_neg h0, if_neg (not_lt.mpr hk)]

/-- Helper: `kneighbors` fails whenever fewer samples were fitted than
neighbors requested (including the empty fit). -/
theorem kneighbors_error_of_lt (dist : Dist) (X : List Vec) (q : Vec)
    (k : Nat) (hk : X.length < k) :
    ∃ e, kneighbors dist X q k = .error e := by
  unfold kneighbors
  by_cases h0 : X.length = 0
  · rw [if_pos h0]
    exact ⟨.emptyFit, rfl⟩
  · rw [if_neg h0, if_pos hk]
    exact ⟨.nNeighborsTooLarge, rfl⟩

/-- Counterexample to C1: the ranking step does not cap k at the number
of candidates.  With 3 fitted samples and n_neighbors = 5, sklearn
raises; in the pipeline (which fixes k = 5) a 3-item corpus fetched with
useTranscripts=false therefore ends in an error, not a 3-item result. -/
theorem rank_three_items_cex :
    kneighbors (fun _ _ => 0) [[1], [2], [3]] [0] 5
      = .error .nNeighborsTooLarge ∧
    (run_search
        (fun _ _ _ => .ok [⟨"a", "t1", "d1"⟩, ⟨"b", "t2", "d2"⟩, ⟨"c", "t3", "d3"⟩])
        (fun _ => .ok []) (fun _ => [1]) (fun _ _ => 0) 0 [] "q" false).result
      = .error (.sklearn .nNeighborsTooLarge) := by
  exact ⟨rfl, rfl⟩

/-- C1 as amended: for a non-empty candidate set, the ranking step
returns exactly min(k, n) results sorted by non-decreasing distance when
k ≤ n, and raises an error when n < k (the pipeline fixes k at 5, so the
3-item scenario errors instead of returning 3 results). -/
theorem rank_min_k_n (dist : Dist) (X : List Vec) (q : Vec) (k : Nat)
    (hne : X ≠ []) :
    (k ≤ X.length → ∃ out, kneighbors dist X q k = .ok out ∧
      out.length = min k X.length ∧ List.Sorted distLE out) ∧
    (X.length < k → kneighbors dist X q k = .error .nNeighborsTooLarge) := by
  have h0 : X.length ≠ 0 := fun hh => hne (List.length_eq_zero.mp hh)
  constructor
  · intro hk
    refine ⟨_, kneighbors_ok_of_le dist X q k h0 hk, ?_, ?_⟩
    · simp [knnPairs, List.length_take, List.length_insertionSort,
        List.length_map, List.length_range]
    · exact List.Pairwise.sublist (List.take_sublist k _)
        (List.sorted_insertionSort distLE (knnPairs dist X q))
  · intro hk
    unfold kneighbors
    rw [if_neg h0, if_pos hk]

/-- Witness for the amended C1: three one-dimensional candidates with
k = 2 give exactly two sorted results, and k = 4 errors. -/
theorem rank_min_k_n_witness :
    ([[(1 : Rat)], [2], [3]] : List Vec) ≠ [] ∧
    ((2 ≤ ([[(1 : Rat)], [2], [3]] : List Vec).length →
      ∃ out, kneighbors (fun a _ => a.getD 0 0) [[(1 : Rat)], [2], [3]] [0] 2
          = .ok out ∧
        out.length = min 2 ([[(1 : Rat)], [2], [3]] : List Vec).length ∧
        List.Sorted distLE out) ∧
    (([[(1 : Rat)], [2], [3]] : List Vec).length < 2 →
      kneighbors (fun a _ => a.getD 0 0) [[(1 : Rat)], [2], [3]] [0] 2
        = .error .nNeighborsTooLarge)) :=
  ⟨by decide,
    rank_min_k_n (fun a _ => a.getD 0 0) [[(1 : Rat)], [2], [3]] [0] 2 (by decide)⟩

/-- Helper: indices returned by `kneighbors` are in range and pairwise
distinct. -/
theorem kneighbors_bounds (dist : Dist) (X : List Vec) (q : Vec) (k : Nat)
    (pairs : List (Nat × Rat)) (h : kneighbors dist X q k = .ok pairs) :
    (∀ p ∈ pairs, p.1 < X.length) ∧ (pairs.map Prod.fst).Nodup := by
  unfold kneighbors at h
  by_cases h0 : X.length = 0
  · rw [if_pos h0] at h
    exact absurd h (by simp)
  · rw [if_neg h0] at h
    by_cases hk : X.length < k
    · rw [if_pos hk] at h
      exact absurd h (by simp)
    · rw [if_neg hk] at h
      replace h : (((List.range X.length).map
          (fun i => (i, dist (X.getD i []) q))).insertionSort distLE).take k
            = pairs := by
        simpa using h
      subst h
      constructor
      · intro p hp
        have hp2 := List.mem_of_mem_take hp
        have hp3 := (List.perm_insertionSort distLE _).subset hp2
        obtain ⟨i, hi, hpe⟩ := List.mem_map.mp hp3
        rw [← hpe]
        exact List.mem_range.mp hi
      · have hperm := (List.perm_insertionSort distLE
          ((List.range X.length).map
            (fun i => (i, dist (X.getD i []) q)))).map Prod.fst
        have hrange : (((List.range X.length).map
            (fun i => (i, dist (X.getD i []) q))).map Prod.fst)
              = List.range X.length := by
          have hcomp : (Prod.fst ∘ fun i => (i, dist (X.getD i []) q))
              = (id : Nat → Nat) := rfl
          rw [List.map_map, hcomp, List.map_id]
        have hnd : ((((List.range X.length).map
            (fun i => (i, dist (X.getD i []) q))).insertionSort distLE).map
              Prod.fst).Nodup := by
          rw [hperm.nodup_iff, hrange]
          exact List.nodup_range _
        exact List.Nodup.sublist
          (List.Sublist.map Prod.fst (List.take_sublist k _)) hnd

/-- C9: the neighbor count is fixed at 5 independent of any caller input,
so a run over a fetched corpus of n candidates fails when n < 5 and
returns exactly 5 items when n ≥ 5, never fewer. -/
theorem run_search_exactly_five (sp : SearchProvider)
    (tp : TranscriptProvider) (model : Model) (dist : Dist) (spCtr : Nat)
    (tc : TCache) (q : String) (flag : Bool) (videos : List Video)
    (hf : (fetch_videos sp tp spCtr tc q flag).result = .ok videos) :
    (videos.length < 5 →
      ∃ e, (run_search sp tp model dist spCtr tc q flag).result = .error e) ∧
    (5 ≤ videos.length →
      ∃ out, (run_search sp tp model dist spCtr tc q flag).result = .ok out ∧
        out.length = 5) := by
  have hX : (List.map model (List.map combinedText videos)).length
      = videos.length := by simp
  constructor
  · intro h5
    obtain ⟨e0, he0⟩ := kneighbors_error_of_lt dist
      (List.map model (List.map combinedText videos)) (model q) 5
      (by rw [hX]; exact h5)
    unfold run_search
    simp only [hf, he0]
    exact ⟨.sklearn e0, rfl⟩
  · intro h5
    have hk := kneighbors_ok_of_le dist
      (List.map model (List.map combinedText videos)) (model q) 5
      (by rw [hX]; omega) (by rw [hX]; exact h5)
    unfold run_search
    simp only [hf, hk]
    refine ⟨_, rfl, ?_⟩
    simp only [knnPairs, List.length_map, List.length_take,
      List.length_insertionSort, List.length_range]
    omega

/-- Witness for C9 at a concrete 5-item corpus. -/
theorem run_search_exactly_five_witness :
    (fetch_videos (fun _ _ _ => .ok [⟨"a", "", ""⟩, ⟨"b", "", ""⟩,
        ⟨"c", "", ""⟩, ⟨"d", "", ""⟩, ⟨"e", "", ""⟩])
      (fun _ => .ok []) 0 [] "q5" false).result
      = .ok [⟨"a", "", "", ""⟩, ⟨"b", "", "", ""⟩, ⟨"c", "", "", ""⟩,
        ⟨"d", "", "", ""⟩, ⟨"e", "", "", ""⟩] ∧
    ((([⟨"a", "", "", ""⟩, ⟨"b", "", "", ""⟩, ⟨"c", "", "", ""⟩,
        ⟨"d", "", "", ""⟩, ⟨"e", "", "", ""⟩] : List Video).length < 5 →
      ∃ e, (run_search (fun _ _ _ => .ok [⟨"a", "", ""⟩, ⟨"b", "", ""⟩,
          ⟨"c", "", ""⟩, ⟨"d", "", ""⟩, ⟨"e", "", ""⟩])
        (fun _ => .ok []) (fun _ => [1]) (fun _ _ => 0) 0 [] "q5" false).result
          = .error e) ∧
    (5 ≤ ([⟨"a", "", "", ""⟩, ⟨"b", "", "", ""⟩, ⟨"c", "", "", ""⟩,
        ⟨"d", "", "", ""⟩, ⟨"e", "", "", ""⟩] : List Video).length →
      ∃ out, (run_search (fun _ _ _ => .ok [⟨"a", "", ""⟩, ⟨"b", "", ""⟩,
          ⟨"c", "", ""⟩, ⟨"d", "", ""⟩, ⟨"e", "", ""⟩])
        (fun _ => .ok []) (fun _ => [1]) (fun _ _ => 0) 0 [] "q5" false).result
          = .ok out ∧ out.length = 5)) :=
  ⟨rfl, run_search_exactly_five (fun _ _ _ => .ok [⟨"a", "", ""⟩, ⟨"b", "", ""⟩,
      ⟨"c", "", ""⟩, ⟨"d", "", ""⟩, ⟨"e", "", ""⟩])
    (fun _ => .ok []) (fun _ => [1]) (fun _ _ => 0) 0 [] "q5" false
    [⟨"a", "", "", ""⟩, ⟨"b", "", "", ""⟩, ⟨"c", "", "", ""⟩,
      ⟨"d", "", "", ""⟩, ⟨"e", "", "", ""⟩] rfl⟩

/-- C10: every item of a successful search output is one of the fetched
candidates, returned unmodified: the output is exactly the ranked
(index, distance) pairs mapped back through the candidate list, the
ranked indices are all in range and pairwise distinct, and every output
element is an element of the fetched list. -/
theorem run_search_output_from_candidates (sp : SearchProvider)
    (tp : TranscriptProvider) (model : Model) (dist : Dist) (spCtr : Nat)
    (tc : TCache) (q : String) (flag : Bool) (videos out : List Video)
    (hf : (fetch_videos sp tp spCtr tc q flag).result = .ok videos)
    (hr : (run_search sp tp model dist spCtr tc q flag).result = .ok out) :
    ∃ pairs, kneighbors dist (List.map model (List.map combinedText videos))
        (model q) 5 = .ok pairs ∧
      out = pairs.map (fun p => videos.getD p.1 default) ∧
      (∀ p ∈ pairs, p.1 < videos.length) ∧
      (pairs.map Prod.fst).Nodup ∧
      ∀ v ∈ out, v ∈ videos := by
  unfold run_search at hr
  simp only [hf] at hr
  cases hk : kneighbors dist (List.map model (List.map combinedText videos))
      (model q) 5 with
  | error e =>
    rw [hk] at hr
    exact absurd hr (by simp)
  | ok pairs =>
    rw [hk] at hr
    replace hr : List.map (fun p => videos.getD p.1 default) pairs = out := by
      simpa using hr
    have hb := kneighbors_bounds dist
      (List.map model (List.map combinedText videos)) (model q) 5 pairs hk
    refine ⟨pairs, rfl, hr.symm, ?_, hb.2, ?_⟩
    · intro p hp
      have := hb.1 p hp
      simpa using this
    · intro v hv
      rw [← hr] at hv
      obtain ⟨p, hp, hpe⟩ := List.mem_map.mp hv
      have hlt : p.1 < videos.length := by simpa using hb.1 p hp
      rw [← hpe, List.getD_eq_getElem videos default hlt]
      exact List.getElem_mem hlt

/-- Witness for C10: with equal distances the stable ranking returns the
five candidates in fetch order, and every conjunct holds concretely. -/
theorem run_search_output_from_candidates_witness :
    (fetch_videos (fun _ _ _ => .ok [⟨"a", "", ""⟩, ⟨"b", "", ""⟩,
        ⟨"c", "", ""⟩, ⟨"d", "", ""⟩, ⟨"e", "", ""⟩])
      (fun _ => .ok []) 0 [] "q10" false).result
      = .ok [⟨"a", "", "", ""⟩, ⟨"b", "", "", ""⟩, ⟨"c", "", "", ""⟩,
        ⟨"d", "", "", ""⟩, ⟨"e", "", "", ""⟩] ∧
    (run_search (fun _ _ _ => .ok [⟨"a", "", ""⟩, ⟨"b", "", ""⟩,
        ⟨"c", "", ""⟩, ⟨"d", "", ""⟩, ⟨"e", "", ""⟩])
      (fun _ => .ok []) (fun _ => [1]) (fun _ _ => 0) 0 [] "q10" false).result
      = .ok [⟨"a", "", "", ""⟩, ⟨"b", "", "", ""⟩, ⟨"c", "", "", ""⟩,
        ⟨"d", "", "", ""⟩, ⟨"e", "", "", ""⟩] ∧
    ∃ pairs, kneighbors (fun _ _ => 0)
        (List.map (fun _ => [1]) (List.map combinedText
          [⟨"a", "", "", ""⟩, ⟨"b", "", "", ""⟩, ⟨"c", "", "", ""⟩,
            ⟨"d", "", "", ""⟩, ⟨"e", "", "", ""⟩]))
        ((fun (_ : String) => ([1] : Vec)) "q10") 5 = .ok pairs ∧
      ([⟨"a", "", "", ""⟩, ⟨"b", "", "", ""⟩, ⟨"c", "", "", ""⟩,
          ⟨"d", "", "", ""⟩, ⟨"e", "", "", ""⟩] : List Video)
        = pairs.map (fun p =>
            ([⟨"a", "", "", ""⟩, ⟨"b", "", "", ""⟩, ⟨"c", "", "", ""⟩,
              ⟨"d", "", "", ""⟩, ⟨"e", "", "", ""⟩] : List Video).getD p.1 default) ∧
      (∀ p ∈ pairs, p.1 < ([⟨"a", "", "", ""⟩, ⟨"b", "", "", ""⟩,
          ⟨"c", "", "", ""⟩, ⟨"d", "", "", ""⟩,
          ⟨"e", "", "", ""⟩] : List Video).length) ∧
      (pairs.map Prod.fst).Nodup ∧
      ∀ v ∈ ([⟨"a", "", "", ""⟩, ⟨"b", "", "", ""⟩, ⟨"c", "", "", ""⟩,
          ⟨"d", "", "", ""⟩, ⟨"e", "", "", ""⟩] : List Video),
        v ∈ ([⟨"a", "", "", ""⟩, ⟨"b", "", "", ""⟩, ⟨"c", "", "", ""⟩,
          ⟨"d", "", "", ""⟩, ⟨"e", "", "", ""⟩] : List Video) :=
  ⟨rfl, rfl,
    run_search_output_from_candidates (fun _ _ _ => .ok [⟨"a", "", ""⟩,
        ⟨"b", "", ""⟩, ⟨"c", "", ""⟩, ⟨"d", "", ""⟩, ⟨"e", "", ""⟩])
      (fun _ => .ok []) (fun _ => [1]) (fun _ _ => 0) 0 [] "q10" false
      [⟨"a", "", "", ""⟩, ⟨"b", "", "", ""⟩, ⟨"c", "", "", ""⟩,
        ⟨"d", "", "", ""⟩, ⟨"e", "", "", ""⟩]
      [⟨"a", "", "", ""⟩, ⟨"b", "", "", ""⟩, ⟨"c", "", "", ""⟩,
        ⟨"d", "", "", ""⟩, ⟨"e", "", "", ""⟩] rfl rfl⟩

end YSS
